import Mathlib

/-!
Verification development for the MailSentryBot message risk-analysis pipeline.

The definitions below are a shallow embedding of the Python sources:
  * `src/analyzers.py` — `VirusTotalClient` (`expand_url`, `check_url`,
    `_handle_api_error`) and `PhishingAnalyzer` (`extract_urls`,
    `format_url_result`, `analyze_text`, `_check_url_risk`,
    `analyze_message`);
  * `src/main.py` — the truncating classifier adapter `analyze_text`.

Network, translation and classifier calls are injected capabilities
(`Caps`).  A Python exception raised by such a call is modelled as an
`Except.error` value; dictionaries with optional keys are modelled as
structures of `Option` fields, and Python's truthiness test
`if d.get('error'):` is modelled as `d.error.getD "" ≠ ""` (absent key and
empty string are both falsy).  Scores are rationals; detection counts are
integers.
-/

/-- The two classes of Python exceptions distinguished by `check_url`:
`requests.exceptions.RequestException` and any other `Exception`.
The payload is `str(e)`. -/
inductive NetEx where
  | reqExc (msg : String)
  | otherExc (msg : String)
deriving DecidableEq, Repr

/-- The part of a VirusTotal HTTP response that `check_url` reads: the
status code, and the `data.attributes.last_analysis_stats` counters
(each `none` when the JSON field is missing, defaulted to 0 by the code). -/
structure HttpResponse where
  status_code : Nat
  malicious : Option Int
  suspicious : Option Int
  harmless : Option Int
deriving DecidableEq, Repr

/-- The value `self.nlp(text)[0]` produced by the injected classifier:
a raw label string and a confidence score. -/
structure NlpOut where
  label : String
  score : ℚ
deriving DecidableEq, Repr

/-- The result dictionary of `check_url` / `_handle_api_error`
(`src/analyzers.py`): every key is optional, mirroring the Python dicts
`{'error': …}`, `{'status': 'queued', 'message': …}` and
`{'malicious': …, 'suspicious': …, 'harmless': …}`. -/
structure VTResult where
  error : Option String
  status : Option String
  message : Option String
  malicious : Option Int
  suspicious : Option Int
  harmless : Option Int
deriving DecidableEq, Repr

/-- The result dictionary of `PhishingAnalyzer.analyze_text`:
either `{'error': …}` or `{'label': …, 'score': …}`. -/
structure TxtResult where
  error : Option String
  label : Option String
  score : Option ℚ
deriving DecidableEq, Repr

/-- Injected capabilities of the `analyzers.py` pipeline: the
`requests.get` call made by `expand_url` (returning the final
`response.url`), the VirusTotal report GET and submission POST (the POST
returns its status code), the `translate_ru_to_en` capability and the
optional NLP classifier `self.nlp`.  `Except.error` models a raised
exception. -/
structure Caps where
  expandGet : String → Except NetEx String
  vtGet : String → Except NetEx HttpResponse
  vtPost : String → Except NetEx Nat
  translate : String → Except String String
  nlp : Option (String → Except String NlpOut)

/-! ### URL-safe base64 resource identifier (`check_url`, step 1) -/

/-- UTF-8 encoding of one code point, as byte values. -/
def charUtf8 (c : Char) : List Nat :=
  let n := c.toNat
  if n < 0x80 then [n]
  else if n < 0x800 then [0xC0 + n / 0x40, 0x80 + n % 0x40]
  else if n < 0x10000 then
    [0xE0 + n / 0x1000, 0x80 + (n / 0x40) % 0x40, 0x80 + n % 0x40]
  else
    [0xF0 + n / 0x40000, 0x80 + (n / 0x1000) % 0x40,
     0x80 + (n / 0x40) % 0x40, 0x80 + n % 0x40]

/-- The URL-safe base64 alphabet (`base64.urlsafe_b64encode`). -/
def b64Alphabet : List Char :=
  "ABCDEFGHIJKLMNOPQRSTUVWXYZabcdefghijklmnopqrstuvwxyz0123456789-_".data

/-- One output character of the base64 encoding. -/
def b64Char (n : Nat) : Char := b64Alphabet.getD n 'A'

/-- URL-safe base64 without padding: `urlsafe_b64encode(…).rstrip("=")`. -/
def b64UrlsafeNoPad : List Nat → List Char
  | [] => []
  | [b1] => [b64Char (b1 / 4), b64Char (b1 % 4 * 16)]
  | [b1, b2] =>
      [b64Char (b1 / 4), b64Char (b1 % 4 * 16 + b2 / 16), b64Char (b2 % 16 * 4)]
  | b1 :: b2 :: b3 :: rest =>
      b64Char (b1 / 4) :: b64Char (b1 % 4 * 16 + b2 / 16) ::
      b64Char (b2 % 16 * 4 + b3 / 64) :: b64Char (b3 % 64) ::
      b64UrlsafeNoPad rest

/-- `base64.urlsafe_b64encode(url.encode()).decode().rstrip("=")`. -/
def encode_url (url : String) : String :=
  String.mk (b64UrlsafeNoPad (url.data.flatMap charUtf8))

/-- The VirusTotal report resource for a URL
(`f'https://www.virustotal.com/api/v3/urls/{encoded}'`). -/
def apiUrl (url : String) : String :=
  "https://www.virustotal.com/api/v3/urls/" ++ encode_url url

/-! ### `VirusTotalClient.expand_url` -/

/-- `(dropPfx p cs).isSome` iff `cs` starts with `p`; the value is the
remainder after `p`. -/
def dropPfx : List Char → List Char → Option (List Char)
  | [], cs => some cs
  | _ :: _, [] => none
  | p :: ps, c :: cs => if p = c then dropPfx ps cs else none

/-- `url.startswith(pat)` for a literal pattern. -/
def startsWithChars (p : String) (s : String) : Bool :=
  (dropPfx p.data s.data).isSome

/-- The scheme normalisation at the top of `expand_url`:
`url if url.startswith(('http://', 'https://', 'ftp://')) else f'http://{url}'`. -/
def withScheme (url : String) : String :=
  if startsWithChars "http://" url || startsWithChars "https://" url
      || startsWithChars "ftp://" url then url
  else "http://" ++ url

/-- `VirusTotalClient.expand_url`: issue the GET on the scheme-normalised
URL; on success return the response's final URL, on any exception return
the scheme-normalised URL (`return full_url`). -/
def expand_url (c : Caps) (url : String) : String :=
  let full_url := withScheme url
  match c.expandGet full_url with
  | .ok u => u
  | .error _ => full_url

/-! ### `VirusTotalClient.check_url` and `_handle_api_error` -/

/-- A `{'error': msg}` dictionary. -/
def mkErrVT (m : String) : VTResult := ⟨some m, none, none, none, none, none⟩

/-- The `except requests.exceptions.RequestException` branch of `check_url`. -/
def netErrVT (m : String) : VTResult := mkErrVT ("Ошибка сети: " ++ m)

/-- The `except Exception` branch of `check_url`. -/
def unkErrVT (m : String) : VTResult := mkErrVT ("Неизвестная ошибка: " ++ m)

/-- The dictionary returned on HTTP 200, with missing counters
defaulted to 0 (`stats.get('malicious', 0)` …). -/
def cleanVT (resp : HttpResponse) : VTResult :=
  ⟨none, none, none, some (resp.malicious.getD 0), some (resp.suspicious.getD 0),
   some (resp.harmless.getD 0)⟩

/-- The `{'status': 'queued', …}` dictionary returned after a successful
submission. -/
def queuedVT : VTResult :=
  ⟨none, some "queued", some "URL отправлен на анализ. Повторите позже.", none,
   none, none⟩

/-- `VirusTotalClient._handle_api_error`: on 404 POST the raw URL to the
submission resource (an exception raised there propagates to the caller's
`try`), on 429 and other statuses build the corresponding error dict. -/
def handle_api_error (c : Caps) (status : Nat) (url : String) :
    Except NetEx VTResult :=
  if status = 404 then
    match c.vtPost url with
    | .error e => .error e
    | .ok code =>
        if code = 200 then .ok queuedVT
        else .ok (mkErrVT ("Ошибка отправки: " ++ toString code))
  else if status = 429 then .ok (mkErrVT "Превышен лимит запросов")
  else .ok (mkErrVT ("Ошибка API: " ++ toString status))

/-- `VirusTotalClient.check_url`: GET the report resource; on 200 extract
the counters, otherwise delegate to `_handle_api_error`; exceptions from
either call are caught and turned into error dicts. -/
def check_url (c : Caps) (url : String) : VTResult :=
  match c.vtGet (apiUrl url) with
  | .error (.reqExc m) => netErrVT m
  | .error (.otherExc m) => unkErrVT m
  | .ok resp =>
      if resp.status_code = 200 then cleanVT resp
      else
        match handle_api_error c resp.status_code url with
        | .ok r => r
        | .error (.reqExc m) => netErrVT m
        | .error (.otherExc m) => unkErrVT m

/-! ### `PhishingAnalyzer.analyze_text` -/

/-- `re.search(r'[а-яА-Я]', text)`: the two ranges U+0430–U+044F and
U+0410–U+042F (ё/Ё excluded, exactly as in the source pattern). -/
def hasCyrillic (text : String) : Bool :=
  text.data.any fun c => ('а' ≤ c && c ≤ 'я') || ('А' ≤ c && c ≤ 'Я')

/-- The `try: result = self.nlp(text)[0] …` tail of `analyze_text`:
map the classifier's label (`'phishing' if … == 'phishing' else 'safe'`)
or catch the exception into `{'error': str(e)}`. -/
def mkFromNlp : Except String NlpOut → TxtResult
  | .error e => ⟨some e, none, none⟩
  | .ok r =>
      ⟨none, some (if r.label = "phishing" then "phishing" else "safe"),
       some r.score⟩

/-- `PhishingAnalyzer.analyze_text`: no model → error dict; Cyrillic
input → translate first (a translation exception returns
`{'error': f"Ошибка перевода: {e}"}` immediately); then classify. -/
def analyze_text (c : Caps) (text : String) : TxtResult :=
  match c.nlp with
  | none => ⟨some "Модель не загружена", none, none⟩
  | some f =>
      if hasCyrillic text then
        match c.translate text with
        | .error e => ⟨some ("Ошибка перевода: " ++ e), none, none⟩
        | .ok t => mkFromNlp (f t)
      else mkFromNlp (f text)

/-! ### `PhishingAnalyzer.extract_urls`

`re.findall` with the pattern
`(?:(?:https?|ftp):\/\/)?(?:www\.)?(?:[a-zA-Z0-9-]+\.)+[a-zA-Z]{2,}(?:\/[^\s]*)?`,
compiled by hand into a backtracking matcher with Python's semantics:
leftmost match, greedy quantifiers, optional groups tried present-first,
non-overlapping scan continuing after each match.  Python's `\s` (which
only terminates the optional path tail) is modelled by
`Char.isWhitespace`. -/

/-- `[a-zA-Z0-9-]` (ASCII, as in the pattern). -/
def isLabelChar (c : Char) : Bool := c.isAlpha || c.isDigit || c = '-'

/-- Greedily split `(?:[a-zA-Z0-9-]+\.)+` material into its repetitions:
each repetition is forced to be a maximal label run followed by a dot
(the character class excludes `.`), so only the repetition count can
backtrack.  Returns the chunks (each ending in `.`) and the unconsumed
tail.  Fuel-structural; called with `fuel = cs.length`. -/
def labelChunksF : Nat → List Char → List (List Char) × List Char
  | 0, cs => ([], cs)
  | fuel + 1, cs =>
      let run := cs.takeWhile isLabelChar
      let rest := cs.dropWhile isLabelChar
      match run, rest with
      | [], _ => ([], cs)
      | _, '.' :: rest' =>
          let p := labelChunksF fuel rest'
          ((run ++ ['.']) :: p.1, p.2)
      | _, _ => ([], cs)

/-- Try `k` repetitions of the label group (from `k` downward — the `+`
is greedy), then `[a-zA-Z]{2,}` greedily, then the optional
`(?:\/[^\s]*)?` path; the pattern has no anchor, so nothing after the
path can fail.  Returns the remainder after the whole match. -/
def tryK (chunks : List (List Char)) (tail : List Char) : Nat → Option (List Char)
  | 0 => none
  | k + 1 =>
      let after := (chunks.drop (k + 1)).flatten ++ tail
      let letters := after.takeWhile Char.isAlpha
      if 2 ≤ letters.length then
        match after.drop letters.length with
        | '/' :: more => some (more.dropWhile fun c => !c.isWhitespace)
        | other => some other
      else tryK chunks tail k

/-- Match `(?:[a-zA-Z0-9-]+\.)+[a-zA-Z]{2,}(?:\/[^\s]*)?` at the head of
`cs`; return the remainder after the match. -/
def tryTail (cs : List Char) : Option (List Char) :=
  let p := labelChunksF cs.length cs
  tryK p.1 p.2 p.1.length

/-- `(?:www\.)?` then the tail: the optional group is tried
present-first, falling back to absent on failure. -/
def tryWwwThen (cs : List Char) : Option (List Char) :=
  match dropPfx "www.".data cs with
  | some after =>
      match tryTail after with
      | some r => some r
      | none => tryTail cs
  | none => tryTail cs

/-- `(?:(?:https?|ftp):\/\/)?`: the literal scheme alternatives
(the alternation `https?|ftp` followed by `://` accepts exactly these
three literals), tried present-first. -/
def matchScheme (cs : List Char) : Option (List Char) :=
  match dropPfx "https://".data cs with
  | some r => some r
  | none =>
      match dropPfx "http://".data cs with
      | some r => some r
      | none => dropPfx "ftp://".data cs

/-- Attempt the whole pattern at the head of `cs`; return the remainder
after the match.  Backtracking order: scheme present > scheme absent,
and within each, `www.` present > absent. -/
def tryAt (cs : List Char) : Option (List Char) :=
  match matchScheme cs with
  | some after =>
      match tryWwwThen after with
      | some r => some r
      | none => tryWwwThen cs
  | none => tryWwwThen cs

/-- The `re.findall` scan: at each position try the pattern; on a match
(always non-empty here) emit the matched span and continue after it,
otherwise advance one character.  Fuel-structural; called with
`fuel = cs.length` (each step consumes at least one character). -/
def findAllF : Nat → List Char → List String
  | 0, _ => []
  | _, [] => []
  | fuel + 1, c :: cs =>
      match tryAt (c :: cs) with
      | some rest =>
          String.mk ((c :: cs).take ((c :: cs).length - rest.length)) ::
            findAllF fuel rest
      | none => findAllF fuel cs

/-- `PhishingAnalyzer.extract_urls`. -/
def extract_urls (text : String) : List String :=
  findAllF text.data.length text.data

/-! ### `PhishingAnalyzer.format_url_result` (risk grader, URL side) -/

/-- The common front of every per-URL report line: `    - `\``url`\``: `.
Every line displays the original extracted URL here. -/
def linePre (url : String) : String := "    - `" ++ url ++ "`: "

/-- `PhishingAnalyzer.format_url_result`: error line, queued line, then
the three risk tiers; `result.get('error')` truthiness is
`error.getD "" ≠ ""`, missing counters default to 0. -/
def format_url_result (url : String) (r : VTResult) : String :=
  if r.error.getD "" ≠ "" then linePre url ++ ("⚠️ " ++ r.error.getD "")
  else if r.status = some "queued" then linePre url ++ "⏳ Отправлен на анализ"
  else if 1 < r.malicious.getD 0 ∨ 1 < r.suspicious.getD 0 then
    linePre url ++ "🔴 Опасно"
  else if 0 < r.malicious.getD 0 ∨ 0 < r.suspicious.getD 0 then
    linePre url ++ "🟡 Подозрительно"
  else linePre url ++ "✅ Безопасно"

/-! ### Text verdict line (risk grader, text side, from `analyze_message`) -/

/-- Round half to even, as Python's `format` does for `.0%`. -/
def roundHalfEven (x : ℚ) : ℤ :=
  let f := ⌊x⌋
  if x - f < 1 / 2 then f
  else if 1 / 2 < x - f then f + 1
  else if f % 2 = 0 then f else f + 1

/-- `f"{score:.0%}"`: the score as a percentage with 0 decimal places. -/
def formatPercent0 (q : ℚ) : String := toString (roundHalfEven (100 * q)) ++ "%"

/-- The `    - 🟡 Подозрительный текст …` line with the rendered confidence. -/
def suspTextLine (sc : ℚ) : String :=
  "    - 🟡 Подозрительный текст (уверенность: " ++ (formatPercent0 sc ++ ")")

/-- The `    - ✅ …` safe-text line. -/
def safeTextLine : String := "    - ✅ Текст не выглядит подозрительным."

/-- The `    - Ошибка анализа текста: …` line. -/
def errTextLine (m : String) : String := "    - Ошибка анализа текста: " ++ m

/-- The text section of `analyze_message` (its final `if/elif/else`).
`result.get('error')` truthiness as above; `result['label']` and
`result['score']` are plain subscripts, so a missing key raises
`KeyError` — modelled as `none` (the whole `analyze_message` call
aborts).  Python's `and` short-circuits: `score` is only read when the
label equals `'phishing'`. -/
def textSection (r : TxtResult) : Option String :=
  if r.error.getD "" ≠ "" then some (errTextLine (r.error.getD ""))
  else
    match r.label with
    | none => none
    | some lbl =>
        if lbl = "phishing" then
          match r.score with
          | none => none
          | some sc =>
              if 1 / 2 < sc then some (suspTextLine sc) else some safeTextLine
        else some safeTextLine

/-! ### `PhishingAnalyzer._check_url_risk` and `analyze_message` -/

/-- `PhishingAnalyzer._check_url_risk`: resolve, look up, format.  Its
`try/except` wrapper is unreachable in this model because `expand_url`
and `check_url` already catch every exception internally. -/
def check_url_risk (c : Caps) (url : String) : String :=
  let expanded_url := expand_url c url
  let result := check_url c expanded_url
  format_url_result url result

/-- `PhishingAnalyzer.analyze_message`: the per-URL section (or the
информационная line when no URL was found), then the text section.
`none` models the run raising `KeyError` in the text section. -/
def analyze_message (c : Caps) (text : String) : Option (List String) :=
  let urls := extract_urls text
  let head :=
    if urls.isEmpty then ["ℹ️ Ссылки не найдены."]
    else "🔎 Анализ ссылок:" :: urls.map (check_url_risk c)
  match textSection (analyze_text c text) with
  | none => none
  | some tline => some (head ++ ["\n📝 Анализ текста:", tline])

/-! ### The `src/main.py` classifier adapter (`analyze_text` there) -/

/-- Capabilities of the `main.py` adapter: the tokenizer (token-id
stream of a text; `truncation=True, max_length=512` keeps the first 512
ids), its decoder, and the classifier.  -/
structure MainCaps where
  tokenize : String → List Nat
  decode : List Nat → String
  nlpM : Option (String → Except String NlpOut)

/-- The label mapping of `main.py`'s adapter
(`'phishing' if result['label'] == 'LABEL_1' else 'safe'`), with
exceptions caught into `{'error': str(e)}`. -/
def mainFromNlp : Except String NlpOut → TxtResult
  | .error e => ⟨some e, none, none⟩
  | .ok r =>
      ⟨none, some (if r.label = "LABEL_1" then "phishing" else "safe"),
       some r.score⟩

/-- `main.py`'s `analyze_text`: tokenize with truncation to 512 tokens,
decode the truncated ids back to text, and classify that decoded text
(the literal `phishing_keywords` set there is empty, so the keyword list
is always empty and is omitted here). -/
def main_analyze_text (c : MainCaps) (text : String) : TxtResult :=
  match c.nlpM with
  | none => ⟨some "Модель не загружена", none, none⟩
  | some f =>
      let ids := (c.tokenize text).take 512
      let truncated_text := c.decode ids
      mainFromNlp (f truncated_text)

/-! ### Stateful view of the pipeline (for the idempotence property)

The Python calls go to a real network and model; to state that the
pipeline is a deterministic function of its input and injected
capabilities, capabilities are generalised to thread an explicit world
state `σ` through every call, in the exact order the source performs
them.  `liftCaps` injects a pure (deterministic mock) capability set. -/

/-- State-threading capabilities. -/
structure StCaps (σ : Type) where
  expandGet : String → σ → Except NetEx String × σ
  vtGet : String → σ → Except NetEx HttpResponse × σ
  vtPost : String → σ → Except NetEx Nat × σ
  translate : String → σ → Except String String × σ
  nlp : Option (String → σ → Except String NlpOut × σ)

/-- `expand_url` with state threading. -/
def expandUrlSt {σ : Type} (c : StCaps σ) (url : String) (s : σ) : String × σ :=
  let full_url := withScheme url
  match c.expandGet full_url s with
  | (.ok u, s') => (u, s')
  | (.error _, s') => (full_url, s')

/-- `_handle_api_error` with state threading. -/
def handleApiErrorSt {σ : Type} (c : StCaps σ) (status : Nat) (url : String)
    (s : σ) : Except NetEx VTResult × σ :=
  if status = 404 then
    match c.vtPost url s with
    | (.error e, s') => (.error e, s')
    | (.ok code, s') =>
        if code = 200 then (.ok queuedVT, s')
        else (.ok (mkErrVT ("Ошибка отправки: " ++ toString code)), s')
  else if status = 429 then (.ok (mkErrVT "Превышен лимит запросов"), s)
  else (.ok (mkErrVT ("Ошибка API: " ++ toString status)), s)

/-- `check_url` with state threading. -/
def checkUrlSt {σ : Type} (c : StCaps σ) (url : String) (s : σ) : VTResult × σ :=
  match c.vtGet (apiUrl url) s with
  | (.error (.reqExc m), s') => (netErrVT m, s')
  | (.error (.otherExc m), s') => (unkErrVT m, s')
  | (.ok resp, s') =>
      if resp.status_code = 200 then (cleanVT resp, s')
      else
        match handleApiErrorSt c resp.status_code url s' with
        | (.ok r, s'') => (r, s'')
        | (.error (.reqExc m), s'') => (netErrVT m, s'')
        | (.error (.otherExc m), s'') => (unkErrVT m, s'')

/-- `analyze_text` with state threading. -/
def analyzeTextSt {σ : Type} (c : StCaps σ) (text : String) (s : σ) :
    TxtResult × σ :=
  match c.nlp with
  | none => (⟨some "Модель не загружена", none, none⟩, s)
  | some f =>
      if hasCyrillic text then
        match c.translate text s with
        | (.error e, s') => (⟨some ("Ошибка перевода: " ++ e), none, none⟩, s')
        | (.ok t, s') =>
            match f t s' with
            | (r, s'') => (mkFromNlp r, s'')
      else
        match f text s with
        | (r, s') => (mkFromNlp r, s')

/-- `_check_url_risk` with state threading. -/
def checkUrlRiskSt {σ : Type} (c : StCaps σ) (url : String) (s : σ) :
    String × σ :=
  let p := expandUrlSt c url s
  let q := checkUrlSt c p.1 p.2
  (format_url_result url q.1, q.2)

/-- The per-URL loop of `analyze_message`, in input order. -/
def riskLinesSt {σ : Type} (c : StCaps σ) : List String → σ → List String × σ
  | [], s => ([], s)
  | u :: us, s =>
      let p := checkUrlRiskSt c u s
      let q := riskLinesSt c us p.2
      (p.1 :: q.1, q.2)

/-- `analyze_message` with state threading. -/
def analyzeMessageSt {σ : Type} (c : StCaps σ) (text : String) (s : σ) :
    Option (List String) × σ :=
  let urls := extract_urls text
  let hp :=
    if urls.isEmpty then ((["ℹ️ Ссылки не найдены."] : List String), s)
    else
      let p := riskLinesSt c urls s
      ("🔎 Анализ ссылок:" :: p.1, p.2)
  let tp := analyzeTextSt c text hp.2
  match textSection tp.1 with
  | none => (none, tp.2)
  | some tline => (some (hp.1 ++ ["\n📝 Анализ текста:", tline]), tp.2)

/-- A deterministic mock backend: a pure capability set viewed as a
state-threading one that reads and writes no state. -/
def liftCaps {σ : Type} (c : Caps) : StCaps σ where
  expandGet := fun u s => (c.expandGet u, s)
  vtGet := fun u s => (c.vtGet u, s)
  vtPost := fun u s => (c.vtPost u, s)
  translate := fun t s => (c.translate t, s)
  nlp := c.nlp.map fun f => fun t s => (f t, s)

/-! ### String helper lemmas -/

lemma string_data_append (s t : String) : (s ++ t).data = s.data ++ t.data := by
  cases s; cases t; rfl

lemma string_eq_of_data {s t : String} (h : s.data = t.data) : s = t := by
  cases s; cases t; exact congrArg String.mk h

lemma string_append_left_cancel {p s t : String} (h : p ++ s = p ++ t) :
    s = t := by
  apply string_eq_of_data
  have hd := congrArg String.data h
  rw [string_data_append, string_data_append] at hd
  exact List.append_cancel_left hd

lemma linePre_inj {url a b : String} (h : linePre url ++ a = linePre url ++ b) :
    a = b := string_append_left_cancel h

lemma linePre_ne {url a b : String} (h : a ≠ b) :
    linePre url ++ a ≠ linePre url ++ b := fun e => h (linePre_inj e)

lemma string_ne_of_take_ne {s t : String} (n : Nat)
    (h : s.data.take n ≠ t.data.take n) : s ≠ t := by
  intro e; subst e; exact h rfl

/-- The suspicious-text line never coincides with the safe-text line
(they already differ in their seventh character). -/
lemma suspTextLine_ne_safe (sc : ℚ) : suspTextLine sc ≠ safeTextLine := by
  apply string_ne_of_take_ne 7
  rw [show suspTextLine sc
      = "    - 🟡 Подозрительный текст (уверенность: " ++ (formatPercent0 sc ++ ")")
      from rfl]
  rw [string_data_append]
  rw [List.take_append_of_le_length (by decide)]
  decide

/-! ### The lifted stateful run coincides with the pure pipeline -/

lemma expandUrlSt_lift {σ : Type} (c : Caps) (url : String) (s : σ) :
    expandUrlSt (liftCaps c) url s = (expand_url c url, s) := by
  simp only [expandUrlSt, expand_url, liftCaps]
  cases c.expandGet (withScheme url) <;> rfl

lemma handleApiErrorSt_lift {σ : Type} (c : Caps) (st : Nat) (url : String)
    (s : σ) :
    handleApiErrorSt (liftCaps c) st url s = (handle_api_error c st url, s) := by
  unfold handleApiErrorSt handle_api_error liftCaps
  by_cases h404 : st = 404
  · simp only [if_pos h404]
    cases c.vtPost url with
    | error e => rfl
    | ok code => by_cases hc : code = 200 <;> simp [hc]
  · simp only [if_neg h404]
    by_cases h429 : st = 429 <;> simp [h429]

lemma checkUrlSt_lift {σ : Type} (c : Caps) (url : String) (s : σ) :
    checkUrlSt (liftCaps c) url s = (check_url c url, s) := by
  unfold checkUrlSt check_url
  cases hg : c.vtGet (apiUrl url) with
  | error e => cases e <;> simp [liftCaps, hg]
  | ok resp =>
      by_cases h200 : resp.status_code = 200
      · simp [liftCaps, hg, h200]
      · have hh := handleApiErrorSt_lift (σ := σ) c resp.status_code url s
        simp only [liftCaps] at hh ⊢
        simp only [hg, if_neg h200, hh]
        cases handle_api_error c resp.status_code url with
        | ok r => rfl
        | error e => cases e <;> rfl

lemma analyzeTextSt_lift {σ : Type} (c : Caps) (text : String) (s : σ) :
    analyzeTextSt (liftCaps c) text s = (analyze_text c text, s) := by
  unfold analyzeTextSt analyze_text
  cases hn : c.nlp with
  | none => simp [liftCaps, hn]
  | some f =>
      by_cases hc : hasCyrillic text
      · simp only [liftCaps, hn, Option.map_some, hc, if_pos]
        cases c.translate text <;> rfl
      · simp [liftCaps, hn, hc]

lemma checkUrlRiskSt_lift {σ : Type} (c : Caps) (url : String) (s : σ) :
    checkUrlRiskSt (liftCaps c) url s = (check_url_risk c url, s) := by
  simp only [checkUrlRiskSt, check_url_risk, expandUrlSt_lift, checkUrlSt_lift]

lemma riskLinesSt_lift {σ : Type} (c : Caps) (urls : List String) (s : σ) :
    riskLinesSt (liftCaps c) urls s = (urls.map (check_url_risk c), s) := by
  induction urls generalizing s with
  | nil => rfl
  | cons u us ih =>
      unfold riskLinesSt
      rw [checkUrlRiskSt_lift]
      simp [ih]

lemma analyzeMessageSt_lift {σ : Type} (c : Caps) (text : String) (s : σ) :
    analyzeMessageSt (liftCaps c) text s = (analyze_message c text, s) := by
  simp only [analyzeMessageSt, analyze_message, riskLinesSt_lift,
    analyzeTextSt_lift]
  by_cases he : (extract_urls text).isEmpty
  · simp only [he, if_true]
    cases textSection (analyze_text c text) <;> rfl
  · simp only [he, if_false, Bool.false_eq_true]
    cases textSection (analyze_text c text) <;> rfl

/-! ### Mock capability sets used in witnesses and counterexamples -/

/-- A deterministic backend whose every network call raises. -/
def failingCaps : Caps where
  expandGet := fun _ => .error (.reqExc "timeout")
  vtGet := fun _ => .error (.reqExc "timeout")
  vtPost := fun _ => .error (.reqExc "timeout")
  translate := fun _ => .error "offline"
  nlp := none

/-- A deterministic mock backend: resolution fails (so `expand_url`
falls back), the reputation service reports zero counters, the
classifier answers `safe`. -/
def mockCaps : Caps where
  expandGet := fun _ => .error (.reqExc "timeout")
  vtGet := fun _ => .ok ⟨200, some 0, some 0, some 0⟩
  vtPost := fun _ => .ok 200
  translate := fun t => .ok t
  nlp := some fun _ => .ok ⟨"safe", 0⟩

/-- A backend whose reputation GET answers 404 and whose submission POST
answers 200. -/
def notSeenCaps : Caps where
  expandGet := fun _ => .error (.reqExc "timeout")
  vtGet := fun _ => .ok ⟨404, none, none, none⟩
  vtPost := fun _ => .ok 200
  translate := fun t => .ok t
  nlp := none

/-! ### Risk-grader characterisation shared by several claims -/

/-- On a result dict with no `error` key and no `queued` status,
`format_url_result` grades purely by the two counters. -/
lemma format_url_result_tiers (url : String) (r : VTResult)
    (he : r.error = none) (hs : r.status ≠ some "queued") :
    format_url_result url r =
      if 1 < r.malicious.getD 0 ∨ 1 < r.suspicious.getD 0 then
        linePre url ++ "🔴 Опасно"
      else if 0 < r.malicious.getD 0 ∨ 0 < r.suspicious.getD 0 then
        linePre url ++ "🟡 Подозрительно"
      else linePre url ++ "✅ Безопасно" := by
  unfold format_url_result
  rw [he]
  simp [hs]

/-- C1: on every reputation result dict with neither an `error` key nor
status `queued`, `format_url_result` yields the Dangerous 🔴 line iff
`malicious > 1` or `suspicious > 1`, the Suspicious 🟡 line iff neither
count exceeds 1 but one is positive, and the Safe ✅ line otherwise
(missing counters default to 0, as in the code); in particular
`malicious=2, suspicious=0` grades Dangerous, `malicious=1` grades
Suspicious, and `malicious=0, suspicious=0` grades Safe. -/
theorem c1_risk_tiers (url : String) (r : VTResult)
    (he : r.error = none) (hs : r.status ≠ some "queued") :
    (format_url_result url r = linePre url ++ "🔴 Опасно" ↔
      (1 < r.malicious.getD 0 ∨ 1 < r.suspicious.getD 0))
  ∧ (format_url_result url r = linePre url ++ "🟡 Подозрительно" ↔
      (¬(1 < r.malicious.getD 0 ∨ 1 < r.suspicious.getD 0) ∧
        (0 < r.malicious.getD 0 ∨ 0 < r.suspicious.getD 0)))
  ∧ (format_url_result url r = linePre url ++ "✅ Безопасно" ↔
      (¬(1 < r.malicious.getD 0 ∨ 1 < r.suspicious.getD 0) ∧
        ¬(0 < r.malicious.getD 0 ∨ 0 < r.suspicious.getD 0)))
  ∧ format_url_result url ⟨none, none, none, some 2, some 0, some 0⟩
      = linePre url ++ "🔴 Опасно"
  ∧ format_url_result url ⟨none, none, none, some 1, some 0, some 0⟩
      = linePre url ++ "🟡 Подозрительно"
  ∧ format_url_result url ⟨none, none, none, some 0, some 0, some 0⟩
      = linePre url ++ "✅ Безопасно" := by
  have hf := format_url_result_tiers url r he hs
  have nDS : linePre url ++ "🔴 Опасно" ≠ linePre url ++ "🟡 Подозрительно" :=
    linePre_ne (by decide)
  have nDB : linePre url ++ "🔴 Опасно" ≠ linePre url ++ "✅ Безопасно" :=
    linePre_ne (by decide)
  have nSB : linePre url ++ "🟡 Подозрительно" ≠ linePre url ++ "✅ Безопасно" :=
    linePre_ne (by decide)
  have nSD := Ne.symm nDS
  have nBD := Ne.symm nDB
  have nBS := Ne.symm nSB
  refine ⟨?_, ?_, ?_, rfl, rfl, rfl⟩ <;>
    · by_cases hd : 1 < r.malicious.getD 0 ∨ 1 < r.suspicious.getD 0
      · simp [hf, hd, nDS, nDB, nSD, nBD, nSB, nBS]
      · by_cases hsu : 0 < r.malicious.getD 0 ∨ 0 < r.suspicious.getD 0
        · simp [hf, hd, hsu, nDS, nDB, nSD, nBD, nSB, nBS]
        · simp [hf, hd, hsu, nDS, nDB, nSD, nBD, nSB, nBS]

/-- C1 witness: a concrete dict with `malicious = 2` grades Dangerous. -/
theorem c1_risk_tiers_witness :
    format_url_result "x.com" ⟨none, none, none, some 2, some 0, some 0⟩
      = linePre "x.com" ++ "🔴 Опасно" :=
  (c1_risk_tiers "x.com" ⟨none, none, none, some 2, some 0, some 0⟩ rfl
    (by decide)).2.2.2.1

/-- C2 counterexample: with every network call failing, `expand_url` on
the schemeless input `example.com` returns `http://example.com`, not the
original input string — the fallback `return full_url` returns the
scheme-normalised URL. -/
theorem c2_counterexample :
    expand_url failingCaps "example.com" ≠ "example.com" := by decide

/-- C2 amended: `expand_url` never raises, and on any network failure it
returns the scheme-normalised input `withScheme url` — which equals the
original input exactly when the input already starts with `http://`,
`https://` or `ftp://`. -/
theorem c2_failure_returns_normalised (c : Caps) (url : String) (e : NetEx)
    (h : c.expandGet (withScheme url) = .error e) :
    expand_url c url = withScheme url
  ∧ ((startsWithChars "http://" url || startsWithChars "https://" url
        || startsWithChars "ftp://" url) = true → withScheme url = url) := by
  constructor
  · simp only [expand_url]
    rw [h]
  · intro hsw
    unfold withScheme
    rw [if_pos hsw]

/-- C2 witness: a scheme-carrying input is returned unchanged on failure. -/
theorem c2_failure_witness :
    expand_url failingCaps "http://a.com" = withScheme "http://a.com"
  ∧ ((startsWithChars "http://" "http://a.com"
        || startsWithChars "https://" "http://a.com"
        || startsWithChars "ftp://" "http://a.com") = true →
      withScheme "http://a.com" = "http://a.com") :=
  c2_failure_returns_normalised failingCaps "http://a.com" (.reqExc "timeout") rfl

/-- C3: whenever the reputation GET answers 404 and the submission POST
answers 200, `check_url` returns exactly the queued verdict, whose graded
line is the pending ⏳ line and none of the Dangerous/Suspicious/Safe
lines; and whenever the POST answers any non-200 status, `check_url`
returns an error verdict. -/
theorem c3_queued_verdict (c : Caps) (url : String) (resp : HttpResponse)
    (hget : c.vtGet (apiUrl url) = .ok resp) (h404 : resp.status_code = 404) :
    (c.vtPost url = .ok 200 →
      check_url c url = queuedVT
      ∧ format_url_result url queuedVT = linePre url ++ "⏳ Отправлен на анализ"
      ∧ format_url_result url queuedVT ≠ linePre url ++ "🔴 Опасно"
      ∧ format_url_result url queuedVT ≠ linePre url ++ "🟡 Подозрительно"
      ∧ format_url_result url queuedVT ≠ linePre url ++ "✅ Безопасно")
  ∧ (∀ s : Nat, c.vtPost url = .ok s → s ≠ 200 →
      check_url c url = mkErrVT ("Ошибка отправки: " ++ toString s)) := by
  have hq : format_url_result url queuedVT
      = linePre url ++ "⏳ Отправлен на анализ" := rfl
  have hcheck : ∀ s : Nat, c.vtPost url = .ok s →
      check_url c url =
        if s = 200 then queuedVT
        else mkErrVT ("Ошибка отправки: " ++ toString s) := by
    intro s hpost
    simp only [check_url, handle_api_error, hget, h404, hpost]
    by_cases h200 : s = 200
    · simp [h200]
    · simp [h200]
  constructor
  · intro hpost
    refine ⟨by simpa using hcheck 200 hpost, hq, ?_, ?_, ?_⟩ <;>
      · rw [hq]
        exact linePre_ne (by decide)
  · intro s hpost hne
    rw [hcheck s hpost, if_neg hne]

/-- C3 witness: with a concrete 404-then-200 backend, the lookup of
`a.com` is queued. -/
theorem c3_queued_verdict_witness :
    check_url notSeenCaps "a.com" = queuedVT
  ∧ format_url_result "a.com" queuedVT
      = linePre "a.com" ++ "⏳ Отправлен на анализ"
  ∧ format_url_result "a.com" queuedVT ≠ linePre "a.com" ++ "🔴 Опасно"
  ∧ format_url_result "a.com" queuedVT ≠ linePre "a.com" ++ "🟡 Подозрительно"
  ∧ format_url_result "a.com" queuedVT ≠ linePre "a.com" ++ "✅ Безопасно" :=
  (c3_queued_verdict notSeenCaps "a.com" ⟨404, none, none, none⟩ rfl rfl).1 rfl

/-- The text section on an error-free result dict, graded purely by the
label and the score. -/
lemma textSection_ok (lbl : String) (sc : ℚ) :
    textSection ⟨none, some lbl, some sc⟩ =
      if lbl = "phishing" then
        if 1 / 2 < sc then some (suspTextLine sc) else some safeTextLine
      else some safeTextLine := by
  unfold textSection
  simp

/-- C4: on a classification result with no error, the text section is the
Suspicious-text 🟡 line iff the label is `phishing` and the score
strictly exceeds 1/2; the score is rendered by `formatPercent0`, which
turns 0.51 into `51%`; and a score of exactly 0.50 with label `phishing`
yields the Safe-text line (the threshold is strict). -/
theorem c4_text_threshold (r : TxtResult) (lbl : String) (sc : ℚ)
    (he : r.error = none) (hl : r.label = some lbl) (hs : r.score = some sc) :
    (textSection r = some (suspTextLine sc) ↔ (lbl = "phishing" ∧ 1 / 2 < sc))
  ∧ formatPercent0 (51 / 100) = "51%"
  ∧ textSection ⟨none, some "phishing", some (1 / 2)⟩ = some safeTextLine := by
  have hne := suspTextLine_ne_safe sc
  have hfmt : formatPercent0 ((51 : ℚ) / 100) = "51%" := by
    have h1 : (100 : ℚ) * (51 / 100) = 51 := by norm_num
    have h2 : roundHalfEven ((100 : ℚ) * (51 / 100)) = 51 := by
      simp only [roundHalfEven, h1]
      norm_num
    unfold formatPercent0
    rw [h2]
    decide
  refine ⟨?_, hfmt, ?_⟩
  · obtain ⟨er, lb, sco⟩ := r
    have he' : er = none := he
    have hl' : lb = some lbl := hl
    have hs' : sco = some sc := hs
    subst he' hl' hs'
    rw [textSection_ok]
    by_cases hp : lbl = "phishing"
    · rw [if_pos hp]
      by_cases hgt : 1 / 2 < sc
      · rw [if_pos hgt]
        exact iff_of_true rfl ⟨hp, hgt⟩
      · rw [if_neg hgt]
        simp only [Option.some_inj]
        exact ⟨fun hbad => absurd hbad.symm hne, fun h => absurd h.2 hgt⟩
    · rw [if_neg hp]
      simp only [Option.some_inj]
      exact ⟨fun hbad => absurd hbad.symm hne, fun h => absurd h.1 hp⟩
  · rw [textSection_ok]
    rw [if_pos rfl, if_neg (lt_irrefl ((1 : ℚ) / 2))]

/-- C4 witness: a phishing verdict with score 0.51 yields the
Suspicious-text line showing 51%. -/
theorem c4_text_threshold_witness :
    textSection ⟨none, some "phishing", some (51 / 100)⟩
      = some (suspTextLine (51 / 100)) :=
  (c4_text_threshold ⟨none, some "phishing", some (51 / 100)⟩ "phishing"
    (51 / 100) rfl rfl rfl).1.mpr ⟨rfl, by norm_num⟩

/-- C5: whenever `analyze_message` returns a report, the block after its
first line starts with exactly one line per extracted URL, in extraction
order (duplicates included), and the report length is the URL count plus
the link header plus the two text-section lines (or the single
informational line plus the text section when no URL was found). -/
theorem c5_report_lines (c : Caps) (text : String) (rep : List String)
    (h : analyze_message c text = some rep) :
    (rep.drop 1).take (extract_urls text).length
        = (extract_urls text).map (check_url_risk c)
  ∧ rep.length = (if (extract_urls text).isEmpty then 1
      else (extract_urls text).length + 1) + 2 := by
  simp only [analyze_message] at h
  cases htx : textSection (analyze_text c text) with
  | none =>
      rw [htx] at h
      exact absurd h (by simp)
  | some tline =>
      rw [htx] at h
      simp only [Option.some_inj] at h
      subst h
      by_cases he : (extract_urls text).isEmpty
      · have he' : extract_urls text = [] := List.isEmpty_iff.mp he
        simp [he']
      · simp only [he, if_false, Bool.false_eq_true]
        constructor
        · simp only [List.cons_append, List.drop_succ_cons, List.drop_zero]
          rw [List.take_append_of_le_length (by simp)]
          simp
        · simp [List.length_append, List.length_map]

/-- C5 witness: one URL in the input, one per-URL line in the report, in
order. -/
theorem c5_report_lines_witness :
    ((["🔎 Анализ ссылок:", "    - `ab.cd`: ✅ Безопасно",
       "\n📝 Анализ текста:",
       "    - ✅ Текст не выглядит подозрительным."].drop 1).take
        (extract_urls "see ab.cd now").length
      = (extract_urls "see ab.cd now").map (check_url_risk mockCaps))
  ∧ (["🔎 Анализ ссылок:", "    - `ab.cd`: ✅ Безопасно",
      "\n📝 Анализ текста:",
      "    - ✅ Текст не выглядит подозрительным."] : List String).length
      = (if (extract_urls "see ab.cd now").isEmpty then 1
          else (extract_urls "see ab.cd now").length + 1) + 2 :=
  c5_report_lines mockCaps "see ab.cd now" _ (by decide)

/-- A backend whose classifier raises an exception with an empty
`str()`: `analyze_text` then returns `{'error': ''}`. -/
def emptyMsgNlpCaps : Caps where
  expandGet := fun _ => .error (.reqExc "timeout")
  vtGet := fun _ => .ok ⟨200, some 0, some 0, some 0⟩
  vtPost := fun _ => .ok 200
  translate := fun t => .ok t
  nlp := some fun _ => .error ""

/-- The same backend with a non-empty classifier exception message. -/
def errMsgNlpCaps : Caps where
  expandGet := fun _ => .error (.reqExc "timeout")
  vtGet := fun _ => .ok ⟨200, some 0, some 0, some 0⟩
  vtPost := fun _ => .ok 200
  translate := fun t => .ok t
  nlp := some fun _ => .error "model boom"

/-- C6: the guarantee fails on one edge.  When the classifier raises an
exception whose `str()` is empty, `analyze_text` returns `{'error': ''}`,
the truthiness test `if result.get('error'):` in `analyze_message` is
False, and the following `result['label']` raises `KeyError` — the whole
call aborts with no report (`none` here).  With any non-empty message the
pipeline behaves as the claim states: the failure becomes a single error
line and the no-URL input still gets the informational line plus the text
section. -/
theorem c6_empty_error_aborts :
    analyze_message emptyMsgNlpCaps "hi" = none
  ∧ analyze_message errMsgNlpCaps "hi"
      = some ["ℹ️ Ссылки не найдены.", "\n📝 Анализ текста:",
              errTextLine "model boom"] := by
  constructor
  · decide
  · decide

/-- C7: on Cyrillic-containing input with a loaded classifier, a failing
translation makes `analyze_text` return the translation-error dict
immediately, with a result independent of the classifier function (the
untranslated text is never classified); a successful translation makes it
classify exactly the translated text. -/
theorem c7_translation_gate (c : Caps) (text : String)
    (f : String → Except String NlpOut)
    (hcyr : hasCyrillic text = true) (hnlp : c.nlp = some f) :
    (∀ m : String, c.translate text = .error m →
        analyze_text c text = ⟨some ("Ошибка перевода: " ++ m), none, none⟩
      ∧ ∀ g : String → Except String NlpOut,
          analyze_text { c with nlp := some g } text = analyze_text c text)
  ∧ (∀ t : String, c.translate text = .ok t →
        analyze_text c text = mkFromNlp (f t)) := by
  constructor
  · intro m hm
    constructor
    · unfold analyze_text
      rw [hnlp]
      simp [hcyr, hm]
    · unfold analyze_text
      rw [hnlp]
      simp [hcyr, hm]
  · intro t ht
    unfold analyze_text
    rw [hnlp]
    simp [hcyr, ht]

/-- A backend with Cyrillic-capable classifier but failing translation. -/
def cyrFailCaps : Caps where
  expandGet := fun _ => .error (.reqExc "timeout")
  vtGet := fun _ => .ok ⟨200, some 0, some 0, some 0⟩
  vtPost := fun _ => .ok 200
  translate := fun _ => .error "offline"
  nlp := some fun _ => .ok ⟨"phishing", 1⟩

/-- C7 witness: Cyrillic input, failing translation, immediate
translation-error verdict. -/
theorem c7_translation_gate_witness :
    analyze_text cyrFailCaps "привет" = ⟨some ("Ошибка перевода: " ++ "offline"),
      none, none⟩ :=
  (((c7_translation_gate cyrFailCaps "привет" (fun _ => .ok ⟨"phishing", 1⟩)
    (by decide) rfl).1 "offline" rfl).1)

/-- A classifier probe whose score records the character count of the
input it receives (one token per character is a valid tokenizer, so an
input of 513 characters is an input of more than 512 tokens). -/
def lenProbeCaps : Caps where
  expandGet := fun _ => .error (.reqExc "timeout")
  vtGet := fun _ => .ok ⟨200, some 0, some 0, some 0⟩
  vtPost := fun _ => .ok 200
  translate := fun t => .ok t
  nlp := some fun s => .ok ⟨"safe", (s.length : ℚ)⟩

/-- A 513-character input. -/
def longText : String := String.mk (List.replicate 513 'a')

set_option maxRecDepth 8192 in
/-- C8 counterexample: `PhishingAnalyzer.analyze_text` performs no
truncation — the classifier receives the input unmodified.  The probe's
recorded score is 513, so the classifier was invoked on an input of 513
characters (hence more than 512 tokens under the one-token-per-character
tokenizer), contradicting the claim for the `analyzers.py` adapter. -/
theorem c8_counterexample :
    analyze_text lenProbeCaps longText = ⟨none, some "safe", some 513⟩
  ∧ 512 < longText.length := by
  constructor
  · decide
  · decide

/-- C8 amended: `main.py`'s `analyze_text` truncates — the classifier is
invoked exactly on the decode of the first at-most-512 token ids of the
tokenized input. -/
theorem c8_main_truncates (c : MainCaps) (text : String)
    (f : String → Except String NlpOut) (h : c.nlpM = some f) :
    ∃ ids : List Nat, ids = (c.tokenize text).take 512
      ∧ ids.length ≤ 512
      ∧ main_analyze_text c text = mainFromNlp (f (c.decode ids)) := by
  refine ⟨(c.tokenize text).take 512, rfl, ?_, ?_⟩
  · exact List.length_take_le 512 (c.tokenize text)
  · simp [main_analyze_text, h]

/-- The classifier used by the `main.py`-adapter witness. -/
def mainMockF : String → Except String NlpOut := fun _ => .ok ⟨"LABEL_1", 1⟩

/-- A `main.py`-adapter backend whose tokenizer always produces 600
token ids. -/
def mainMock : MainCaps where
  tokenize := fun _ => List.replicate 600 7
  decode := fun _ => "decoded"
  nlpM := some mainMockF

/-- C8 witness: with a 600-token input the `main.py` adapter classifies
the decode of the first 512 ids. -/
theorem c8_main_truncates_witness :
    ∃ ids : List Nat, ids = (mainMock.tokenize "t").take 512
      ∧ ids.length ≤ 512
      ∧ main_analyze_text mainMock "t"
          = mainFromNlp (mainMockF (mainMock.decode ids)) :=
  c8_main_truncates mainMock "t" mainMockF rfl

/-- C9: with a deterministic (state-ignoring) mock backend, running the
pipeline twice in sequence — the second run starting in the world state
left by the first — produces the same report both times, and that report
is the pure function `analyze_message` of the input and the backend. -/
theorem c9_deterministic_idempotent {σ : Type} (c : Caps) (text : String)
    (s : σ) :
    (analyzeMessageSt (liftCaps c) text
        ((analyzeMessageSt (liftCaps c) text s).2)).1
      = (analyzeMessageSt (liftCaps c) text s).1
  ∧ (analyzeMessageSt (liftCaps c) text s).1 = analyze_message c text := by
  rw [analyzeMessageSt_lift, analyzeMessageSt_lift]
  exact ⟨rfl, rfl⟩

/-- Every branch of `format_url_result` renders the URL argument it was
given inside the common line front. -/
lemma format_url_result_shape (u : String) (r : VTResult) :
    ∃ rest : String, format_url_result u r = linePre u ++ rest := by
  unfold format_url_result
  split
  · exact ⟨_, rfl⟩
  · split
    · exact ⟨_, rfl⟩
    · split
      · exact ⟨_, rfl⟩
      · split
        · exact ⟨_, rfl⟩
        · exact ⟨_, rfl⟩

/-- C10: the per-URL line always displays the original extracted URL in
its URL slot (the line is `    - \`url\`: …` for the url passed in, not
the resolved one), and the line depends on the resolved URL only through
the reputation verdict: any two backends whose lookups of their resolved
URLs agree produce the same line for the same original URL. -/
theorem c10_original_url_displayed (c : Caps) (u : String) :
    (∃ rest : String, check_url_risk c u = linePre u ++ rest)
  ∧ ∀ c' : Caps,
      check_url c' (expand_url c' u) = check_url c (expand_url c u) →
      check_url_risk c' u = check_url_risk c u := by
  constructor
  · exact format_url_result_shape u (check_url c (expand_url c u))
  · intro c' hsame
    simp only [check_url_risk]
    rw [hsame]

/-- A backend that resolves every URL to `http://a.example/`. -/
def resolverACaps : Caps :=
  { mockCaps with expandGet := fun _ => .ok "http://a.example/" }

/-- A backend that resolves every URL to `http://b.example/`. -/
def resolverBCaps : Caps :=
  { mockCaps with expandGet := fun _ => .ok "http://b.example/" }

/-- C10 witness: two backends resolving `short.io` to different final
URLs but with equal verdicts produce the identical per-URL line, which
displays the original `short.io`. -/
theorem c10_original_url_displayed_witness :
    check_url_risk resolverBCaps "short.io" = check_url_risk resolverACaps "short.io" :=
  (c10_original_url_displayed resolverACaps "short.io").2 resolverBCaps (by decide)
